import Mathlib

/-!
# Event service (taller): request validation, handlers, store and connection manager

A shallow embedding of the Go sources

* `internal/models/event.go`       (Event, CreateEventRequest, Validate, sentinel errors)
* `internal/handlers/*.go`         (HandleEvents, HandleEventByID, create, newEvent, getAll,
                                    getByID, extractEventID, respondJSON, respondError)
* `internal/repository/event_repository.go` (Create, GetAll, GetByID)
* `internal/db/db.go`              (Connect, Close, GetConn)

Go strings are modelled by Lean strings; Go's `len(s)` is the number of bytes of the
UTF-8 encoding, `String.utf8ByteSize`.  Everything the code obtains from outside
(the JSON decoder, `uuid.New`, `uuid.Parse`, `time.Now`, the pgx driver, `ctx.Err()`)
is an explicit input of the function that uses it.
-/

namespace Taller

/-! ## Library types -/

/-- Instant of `time.Time` without monotonic reading: seconds and nanoseconds. -/
structure Time where
  sec : Int
  nsec : Nat
  deriving DecidableEq, Repr

/-- Go `func (t Time) Before(u Time) bool`: `ts < us || ts == us && t.nsec() < u.nsec()`. -/
def Time.Before (t u : Time) : Bool :=
  decide (t.sec < u.sec) || (decide (t.sec = u.sec) && decide (t.nsec < u.nsec))

/-- Value of `uuid.UUID`, a 128-bit identifier kept as a number. -/
structure UUID where
  value : Nat
  deriving DecidableEq, Repr

/-- Errors produced below the repository: by the pgx driver or by the context. -/
inductive DriverErr where
  | noRows
  | deadlineExceeded
  | canceled
  | other (msg : String)
  | wrap (msg : String) (inner : DriverErr)
  deriving DecidableEq, Repr

/-- Go `errors.Is(err, pgx.ErrNoRows)`: walks the chain of wrapped errors. -/
def DriverErr.isNoRows : DriverErr → Bool
  | .noRows => true
  | .wrap _ inner => inner.isNoRows
  | _ => false

/-- Go `err.Error()` for driver-level errors. -/
def DriverErr.Error : DriverErr → String
  | .noRows => "no rows in result set"
  | .deadlineExceeded => "context deadline exceeded"
  | .canceled => "context canceled"
  | .other msg => msg
  | .wrap msg inner => msg ++ ": " ++ inner.Error

/-! ## internal/models/event.go -/

/-- Errors of the application: the three sentinels of package models and the errors
built by `fmt.Errorf("...: %w", err)` around a driver error. -/
inductive Err where
  | ErrInvalidTitle
  | ErrInvalidTimeRange
  | ErrEventNotFound
  | wrapped (msg : String) (cause : DriverErr)
  deriving DecidableEq, Repr

/-- Go `err.Error()`. -/
def Err.Error : Err → String
  | .ErrInvalidTitle => "title must be non-empty and at most 100 characters"
  | .ErrInvalidTimeRange => "start time must be before end time"
  | .ErrEventNotFound => "event not found"
  | .wrapped msg cause => msg ++ ": " ++ cause.Error

/-- Go `errors.Is(err, models.ErrEventNotFound)`: the sentinel is found only by identity;
no error in the chain of a wrapped driver error is that sentinel. -/
def Err.isEventNotFound : Err → Bool
  | .ErrEventNotFound => true
  | _ => false

structure Event where
  ID : UUID
  Title : String
  Description : Option String
  StartTime : Time
  EndTime : Time
  CreatedAt : Time
  deriving DecidableEq, Repr

structure CreateEventRequest where
  Title : String
  Description : Option String
  StartTime : Time
  EndTime : Time
  deriving DecidableEq, Repr

/-- Go `len(s)` on a string: the number of bytes. -/
def len (s : String) : Nat := s.utf8ByteSize

/-- Go `func (r *CreateEventRequest) Validate() error`; `none` is the nil error. -/
def Validate (r : CreateEventRequest) : Option Err :=
  if r.Title = "" ∨ len r.Title > 100 then
    some Err.ErrInvalidTitle
  else if ¬ (r.StartTime.Before r.EndTime = true) then
    some Err.ErrInvalidTimeRange
  else
    none

/-! ## internal/handlers/event_handler.go: newEvent -/

/-- Go `newEvent(req)`; the values of `uuid.New()` and `time.Now().UTC()` are inputs. -/
def newEvent (req : CreateEventRequest) (newID : UUID) (now : Time) : Except Err Event :=
  match Validate req with
  | some err => .error err
  | none =>
    .ok { ID := newID
          Title := req.Title
          Description := req.Description
          StartTime := req.StartTime
          EndTime := req.EndTime
          CreatedAt := now }

/-! ## internal/repository/event_repository.go -/

/-- Cursor of `conn.Query`: one `rows.Scan` outcome for every row for which `rows.Next()`
returned true, in delivery order, and the value of `rows.Err()` after the loop. -/
structure Rows where
  scans : List (Except DriverErr Event)
  err : Option DriverErr

/-- Timestamp columns of table events that an ORDER BY clause can name. -/
inductive OrderBy where
  | start_time
  | end_time
  | created_at
  deriving DecidableEq, Repr

/-- Value of an event on a timestamp column. -/
def OrderBy.key : OrderBy → Event → Time
  | .start_time, e => e.StartTime
  | .end_time, e => e.EndTime
  | .created_at, e => e.CreatedAt

/-- A statement `SELECT id, title, description, start_time, end_time, created_at FROM events`
with its ORDER BY clause: the column sorted on, ascending, or `none` without the clause. -/
structure SelectQuery where
  orderByAsc : Option OrderBy
  deriving DecidableEq, Repr

/-- Connection `*pgx.Conn` as the repository uses it: the outcome of `Exec` for the insert,
of `Query` for a select statement and of `QueryRow(...).Scan` for the lookup by id. -/
structure PgxConn where
  exec : Event → Option DriverErr
  query : SelectQuery → Except DriverErr Rows
  queryRow : UUID → Except DriverErr Event

structure EventRepository where
  conn : PgxConn

/-- Go `NewEventRepository`. -/
def NewEventRepository (conn : PgxConn) : EventRepository := { conn := conn }

/-- Go `(*EventRepository).Create`. -/
def Create (r : EventRepository) (event : Event) : Option Err :=
  match r.conn.exec event with
  | some err => some (Err.wrapped "failed to create event" err)
  | none => none

/-- Row loop of `GetAll`: `events` is the slice built so far by `append`. -/
def scanRows : List (Except DriverErr Event) → List Event → Except Err (List Event)
  | [], events => .ok events
  | .error err :: _, _ => .error (Err.wrapped "failed to scan event" err)
  | .ok event :: rest, events => scanRows rest (events ++ [event])

/-- The query text of `GetAll`:
`SELECT id, title, description, start_time, end_time, created_at FROM events
ORDER BY start_time ASC`. -/
def getAllQuery : SelectQuery := { orderByAsc := some OrderBy.start_time }

/-- Go `(*EventRepository).GetAll`. -/
def GetAll (r : EventRepository) : Except Err (List Event) :=
  match r.conn.query getAllQuery with
  | .error err => .error (Err.wrapped "failed to query events" err)
  | .ok rows =>
    match scanRows rows.scans [] with
    | .error err => .error err
    | .ok events =>
      match rows.err with
      | some err => .error (Err.wrapped "error iterating events" err)
      | none => .ok events

/-- Go `(*EventRepository).GetByID`. -/
def GetByID (r : EventRepository) (id : UUID) : Except Err Event :=
  match r.conn.queryRow id with
  | .error err =>
    if err.isNoRows then .error Err.ErrEventNotFound
    else .error (Err.wrapped "failed to get event" err)
  | .ok event => .ok event

/-! ## internal/handlers/response.go -/

/-- Value handed to `respondJSON` for encoding. -/
inductive Payload where
  | ErrorResponse (Error : String) (Message : String)
  | event (e : Event)
  | events (es : List Event)
  deriving DecidableEq, Repr

/-- What the handler wrote: the status of `w.WriteHeader` and the encoded value. -/
structure Response where
  status : Nat
  data : Payload
  deriving DecidableEq, Repr

/-- Go `respondJSON(w, status, data)`. -/
def respondJSON (status : Nat) (data : Payload) : Response :=
  { status := status, data := data }

/-- Go `respondError(w, status, errMsg, details)`. -/
def respondError (status : Nat) (errMsg : String) (details : String) : Response :=
  respondJSON status (Payload.ErrorResponse errMsg details)

/-! ## internal/handlers/event_handler.go -/

def StatusOK : Nat := 200
def StatusCreated : Nat := 201
def StatusBadRequest : Nat := 400
def StatusNotFound : Nat := 404
def StatusMethodNotAllowed : Nat := 405
def StatusInternalServerError : Nat := 500
def StatusGatewayTimeout : Nat := 504
def MethodGet : String := "GET"
def MethodPost : String := "POST"

/-- Non-nil values of `ctx.Err()`. -/
inductive CtxErr where
  | Canceled
  | DeadlineExceeded
  deriving DecidableEq, Repr

/-- Go `errors.Is(ctx.Err(), context.DeadlineExceeded)`. -/
def isDeadlineExceeded (ctxErr : Option CtxErr) : Bool :=
  match ctxErr with
  | some CtxErr.DeadlineExceeded => true
  | _ => false

/-- The parts of `*http.Request` the handlers read; `decoded` is the outcome of
`json.NewDecoder(r.Body).Decode(&req)`, `none` when decoding fails. -/
structure Request where
  Method : String
  Path : String
  decoded : Option CreateEventRequest

/-- What one request obtains from outside the handler: `uuid.New()`, `time.Now().UTC()`,
the value of `ctx.Err()` when the handler reads it, and the parser `uuid.Parse`. -/
structure World where
  newID : UUID
  now : Time
  ctxErr : Option CtxErr
  parse : String → Option UUID

/-- Calls made on the Event Store while serving a request. -/
inductive StoreOp where
  | Create (event : Event)
  | GetAll
  | GetByID (id : UUID)
  deriving DecidableEq, Repr

structure EventHandler where
  repo : EventRepository

/-- Go `NewEventHandler`. -/
def NewEventHandler (repo : EventRepository) : EventHandler := { repo := repo }

/-- Go `strings.Trim(s, cutset)`: drops leading and trailing characters found in `cutset`. -/
def stringsTrim (s : String) (cutset : String) : String :=
  let inCut := fun c => cutset.data.contains c
  ⟨((s.data.dropWhile inCut).reverse.dropWhile inCut).reverse⟩

/-- Pieces of a character list between occurrences of `sep`. -/
def splitChars (sep : Char) : List Char → List (List Char)
  | [] => [[]]
  | c :: cs =>
    if c = sep then [] :: splitChars sep cs
    else
      match splitChars sep cs with
      | [] => [[c]]
      | piece :: pieces => (c :: piece) :: pieces

/-- Go `strings.Split(s, sep)` for a separator of one character. -/
def stringsSplit (s : String) (sep : Char) : List String :=
  (splitChars sep s.data).map String.mk

/-- Go `extractEventID(path)`; the error is given by its message. -/
def extractEventID (parse : String → Option UUID) (path : String) : Except String UUID :=
  let parts := stringsSplit (stringsTrim path "/") '/'
  if parts.length < 2 ∨ parts.getD 1 "" = "" then
    .error "missing event ID"
  else
    match parse (parts.getD 1 "") with
    | none => .error "invalid event ID format"
    | some id => .ok id

/-- Go `(*EventHandler).create`. -/
def create (h : EventHandler) (w : World) (r : Request) : Response × List StoreOp :=
  match r.decoded with
  | none => (respondError StatusBadRequest "invalid_payload" "Invalid request payload", [])
  | some req =>
    match newEvent req w.newID w.now with
    | .error err => (respondError StatusBadRequest "validation_error" err.Error, [])
    | .ok event =>
      match Create h.repo event with
      | some _ =>
        if isDeadlineExceeded w.ctxErr then
          (respondError StatusGatewayTimeout "timeout" "Request timed out", [StoreOp.Create event])
        else
          (respondError StatusInternalServerError "internal_error" "Failed to create event",
            [StoreOp.Create event])
      | none => (respondJSON StatusCreated (Payload.event event), [StoreOp.Create event])

/-- Go `(*EventHandler).getAll`. -/
def getAll (h : EventHandler) (w : World) (_r : Request) : Response × List StoreOp :=
  match GetAll h.repo with
  | .error _ =>
    if isDeadlineExceeded w.ctxErr then
      (respondError StatusGatewayTimeout "timeout" "Request timed out", [StoreOp.GetAll])
    else
      (respondError StatusInternalServerError "internal_error" "Failed to fetch events",
        [StoreOp.GetAll])
  | .ok events => (respondJSON StatusOK (Payload.events events), [StoreOp.GetAll])

/-- Go `(*EventHandler).getByID`. -/
def getByID (h : EventHandler) (w : World) (_r : Request) (id : UUID) :
    Response × List StoreOp :=
  match GetByID h.repo id with
  | .error err =>
    if err.isEventNotFound then
      (respondError StatusNotFound "not_found" "Event not found", [StoreOp.GetByID id])
    else if isDeadlineExceeded w.ctxErr then
      (respondError StatusGatewayTimeout "timeout" "Request timed out", [StoreOp.GetByID id])
    else
      (respondError StatusInternalServerError "internal_error" "Failed to fetch event",
        [StoreOp.GetByID id])
  | .ok event => (respondJSON StatusOK (Payload.event event), [StoreOp.GetByID id])

/-- Go `(*EventHandler).HandleEvents`. -/
def HandleEvents (h : EventHandler) (w : World) (r : Request) : Response × List StoreOp :=
  if r.Method = MethodGet then getAll h w r
  else if r.Method = MethodPost then create h w r
  else (respondError StatusMethodNotAllowed "method_not_allowed" "Method not allowed", [])

/-- Go `(*EventHandler).HandleEventByID`. -/
def HandleEventByID (h : EventHandler) (w : World) (r : Request) : Response × List StoreOp :=
  match extractEventID w.parse r.Path with
  | .error msg => (respondError StatusBadRequest "invalid_id" msg, [])
  | .ok id =>
    if r.Method = MethodGet then getByID h w r id
    else (respondError StatusMethodNotAllowed "method_not_allowed" "Method not allowed", [])

/-! ## internal/db/db.go -/

/-- Handle of an established connection. -/
structure Conn where
  handle : Nat
  deriving DecidableEq, Repr

structure Config where
  URL : String
  ConnectTimeout : Int
  deriving DecidableEq, Repr

/-- Calls made on the driver by the connection manager. -/
inductive Effect where
  | connect (url : String) (bounded : Bool)
  | ping (c : Conn)
  | close (c : Conn)
  deriving DecidableEq, Repr

/-- One call `Connect(ctx, cfg)`: its config and what the driver answers under its context
if asked; `pgx.Connect` returns either a connection or an error. -/
structure ConnectCall where
  cfg : Config
  dial : Except DriverErr Conn
  ping : Conn → Option DriverErr

/-- Package variables `conn`, `connErr`, `connOnce`, and the driver calls made so far. -/
structure DbState where
  conn : Option Conn
  connErr : Option Err
  connOnce : Bool
  log : List Effect
  deriving DecidableEq, Repr

/-- State of the package when the process starts. -/
def DbState.initial : DbState :=
  { conn := none, connErr := none, connOnce := false, log := [] }

/-- Body of the function passed to `connOnce.Do`. -/
def connectOnce (s : DbState) (c : ConnectCall) : DbState :=
  let bounded := decide (c.cfg.ConnectTimeout > 0)
  match c.dial with
  | .error err =>
    { s with conn := none
             connErr := some (Err.wrapped "failed to connect to database" err)
             log := s.log ++ [Effect.connect c.cfg.URL bounded] }
  | .ok cn =>
    match c.ping cn with
    | some err =>
      { s with conn := none
               connErr := some (Err.wrapped "failed to ping database" err)
               log := s.log ++ [Effect.connect c.cfg.URL bounded, Effect.ping cn, Effect.close cn] }
    | none =>
      { s with conn := some cn
               connErr := none
               log := s.log ++ [Effect.connect c.cfg.URL bounded, Effect.ping cn] }

/-- Go `Connect(ctx, cfg)`: returns `(conn, connErr)` and the new package state. -/
def Connect (s : DbState) (c : ConnectCall) : (Option Conn × Option Err) × DbState :=
  let s1 := if s.connOnce then s else { connectOnce s c with connOnce := true }
  ((s1.conn, s1.connErr), s1)

/-- Go `GetConn()`. -/
def GetConn (s : DbState) : Option Conn := s.conn

/-- Go `Close(ctx)`; `closeErr` is what `conn.Close(ctx)` answers. -/
def Close (s : DbState) (closeErr : Option DriverErr) : Option DriverErr × DbState :=
  match s.conn with
  | some cn => (closeErr, { s with log := s.log ++ [Effect.close cn] })
  | none => (none, s)

/-- A sequence of `Connect` calls, in order: the pair returned by each and the final state. -/
def connectAll : DbState → List ConnectCall → List (Option Conn × Option Err) × DbState
  | s, [] => ([], s)
  | s, c :: cs =>
    let (r, s1) := Connect s c
    let (rs, s2) := connectAll s1 cs
    (r :: rs, s2)

/-- Number of `pgx.Connect` calls in a driver log. -/
def countConnects (log : List Effect) : Nat :=
  (log.filter fun e => match e with | Effect.connect _ _ => true | _ => false).length

/-- Number of `Ping` calls in a driver log. -/
def countPings (log : List Effect) : Nat :=
  (log.filter fun e => match e with | Effect.ping _ => true | _ => false).length

/-! ## Concrete inputs used to instantiate the theorems -/

/-- Value of a hexadecimal digit. -/
def hexDigit (c : Char) : Option Nat :=
  if '0' ≤ c ∧ c ≤ '9' then some (c.toNat - 48)
  else if 'a' ≤ c ∧ c ≤ 'f' then some (c.toNat - 87)
  else if 'A' ≤ c ∧ c ≤ 'F' then some (c.toNat - 55)
  else none

/-- Number spelled by a list of hexadecimal digits, `none` when one is not a digit. -/
def hexNumber : List Char → Nat → Option Nat
  | [], acc => some acc
  | c :: cs, acc =>
    match hexDigit c with
    | none => none
    | some d => hexNumber cs (16 * acc + d)

/-- A parser for the canonical textual form `xxxxxxxx-xxxx-xxxx-xxxx-xxxxxxxxxxxx` only
(36 characters, a dash at offsets 8, 13, 18 and 23, a hexadecimal digit everywhere else):
a concrete instance of `World.parse`. The library parser `uuid.Parse` is a parameter of the
handlers and is not modelled; it accepts this form with the same value, and further forms
that this instance rejects. -/
def parseCanonical (s : String) : Option UUID :=
  let cs := s.data
  if cs.length = 36 ∧ cs.getD 8 ' ' = '-' ∧ cs.getD 13 ' ' = '-' ∧ cs.getD 18 ' ' = '-'
      ∧ cs.getD 23 ' ' = '-' then
    (hexNumber (cs.take 8 ++ (cs.drop 9).take 4 ++ (cs.drop 14).take 4 ++ (cs.drop 19).take 4
      ++ (cs.drop 24).take 12) 0).map UUID.mk
  else
    none

/-- Title of 51 copies of the two-byte character U+00E9: 51 characters, 102 bytes. -/
def accentedTitle : String := String.mk (List.replicate 51 (Char.ofNat 233))

/-- The request of the example scenario, with times as seconds since the epoch. -/
def standupRequest : CreateEventRequest :=
  { Title := "Standup", Description := none,
    StartTime := { sec := 1704099600, nsec := 0 }, EndTime := { sec := 1704100500, nsec := 0 } }

/-- A connection on which every statement succeeds and the table holds one event per id. -/
def healthyConn : PgxConn :=
  { exec := fun _ => none
    query := fun _ => .ok { scans := [], err := none }
    queryRow := fun id =>
      .ok { ID := id, Title := "Standup", Description := none,
            StartTime := { sec := 1704099600, nsec := 0 },
            EndTime := { sec := 1704100500, nsec := 0 },
            CreatedAt := { sec := 1704000000, nsec := 0 } } }

/-- A connection on which every statement fails with the given driver error. -/
def failingConn (err : DriverErr) : PgxConn :=
  { exec := fun _ => some err
    query := fun _ => .error err
    queryRow := fun _ => .error err }

/-- A world whose context reports the given error. -/
def worldWith (ctxErr : Option CtxErr) : World :=
  { newID := { value := 42 }, now := { sec := 1704000000, nsec := 0 }, ctxErr := ctxErr,
    parse := parseCanonical }

/-- Events ordered non-decreasing by `StartTime`: no later element starts before an earlier
one. -/
def orderedByStartTime (events : List Event) : Prop :=
  events.Pairwise fun a b => b.StartTime.Before a.StartTime = false

instance (events : List Event) : Decidable (orderedByStartTime events) :=
  inferInstanceAs
    (Decidable (List.Pairwise (fun (a b : Event) => b.StartTime.Before a.StartTime = false)
      events))

/-- An event of the given id starting at the given second and lasting one hour. -/
def eventAt (id : Nat) (start : Int) : Event :=
  { ID := { value := id }, Title := "Standup", Description := none,
    StartTime := { sec := start, nsec := 0 }, EndTime := { sec := start + 3600, nsec := 0 },
    CreatedAt := { sec := 1704000000, nsec := 0 } }

/-- A connection whose select statements deliver the given events as they are, whatever the
statement asks. -/
def listingConn (events : List Event) : PgxConn :=
  { exec := fun _ => none
    query := fun _ => .ok { scans := events.map Except.ok, err := none }
    queryRow := fun _ => .error DriverErr.noRows }

/-- Order in which the database compares two events on a timestamp column: `a` is not after
`b`. -/
def notAfter (col : OrderBy) (a b : Event) : Prop :=
  (col.key b).Before (col.key a) = false

instance (col : OrderBy) : DecidableRel (notAfter col) :=
  fun a b => inferInstanceAs (Decidable ((col.key b).Before (col.key a) = false))

/-- Model of the database answering a select statement over the rows of table events:
every row of the table, sorted ascending on the ORDER BY column (rows with equal keys keep
their table order), or in table order when the statement has no ORDER BY clause. -/
def runSelect (table : List Event) (q : SelectQuery) : List Event :=
  match q.orderByAsc with
  | none => table
  | some col => table.insertionSort (notAfter col)

/-- A connection to a database whose table events holds the given rows: select statements
are answered by `runSelect`, every row scans, and the lookup by id finds the first row of
that id. -/
def tableConn (table : List Event) : PgxConn :=
  { exec := fun _ => none
    query := fun q => .ok { scans := (runSelect table q).map Except.ok, err := none }
    queryRow := fun id =>
      match table.find? fun e => decide (e.ID = id) with
      | some e => .ok e
      | none => .error DriverErr.noRows }

/-- A call of `Connect` on which the driver connects and the ping succeeds. -/
def goodCall (handle : Nat) : ConnectCall :=
  { cfg := { URL := "postgresql://localhost/events", ConnectTimeout := 10 }
    dial := .ok { handle := handle }
    ping := fun _ => none }

/-- A call of `Connect` on which the driver connects and the ping fails. -/
def pingFailCall (handle : Nat) : ConnectCall :=
  { cfg := { URL := "postgresql://localhost/events", ConnectTimeout := 10 }
    dial := .ok { handle := handle }
    ping := fun _ => some (DriverErr.other "ping failed") }

/-- A call of `Connect` on which the driver cannot connect. -/
def dialFailCall : ConnectCall :=
  { cfg := { URL := "postgresql://localhost/events", ConnectTimeout := 0 }
    dial := .error (DriverErr.other "connection refused")
    ping := fun _ => none }

/-! ## Auxiliary lemmas -/

theorem utf8ByteSize_go_ge_length (cs : List Char) :
    cs.length ≤ String.utf8ByteSize.go cs := by
  induction cs with
  | nil => simp [String.utf8ByteSize.go]
  | cons c cs ih =>
    have hc := Char.utf8Size_pos c
    simp only [String.utf8ByteSize.go, List.length_cons]
    omega

theorem length_le_len (s : String) : s.length ≤ len s := by
  cases s with
  | mk cs => exact utf8ByteSize_go_ge_length cs

theorem length_pos_of_ne_empty (s : String) (h : s ≠ "") : 1 ≤ s.length := by
  cases s with
  | mk cs =>
    cases cs with
    | nil => exact absurd rfl h
    | cons c cs => simp [String.length]

theorem Validate_invalid_title_iff (r : CreateEventRequest) :
    Validate r = some Err.ErrInvalidTitle ↔ (r.Title = "" ∨ len r.Title > 100) := by
  unfold Validate
  by_cases h : r.Title = "" ∨ len r.Title > 100
  · simp [h]
  · rw [if_neg h]
    constructor
    · intro hv
      split at hv <;> simp at hv
    · intro hv
      exact absurd hv h

theorem Validate_none_iff (r : CreateEventRequest) :
    Validate r = none ↔
      (r.Title ≠ "" ∧ len r.Title ≤ 100 ∧ r.StartTime.Before r.EndTime = true) := by
  unfold Validate
  by_cases h : r.Title = "" ∨ len r.Title > 100
  · rw [if_pos h]
    constructor
    · intro hv; simp at hv
    · rintro ⟨h1, h2, _⟩
      rcases h with h | h
      · exact absurd h h1
      · omega
  · rw [if_neg h]
    have h1 : r.Title ≠ "" := fun e => h (Or.inl e)
    have h2 : len r.Title ≤ 100 := by
      by_contra hc
      exact h (Or.inr (by omega))
    by_cases hb : r.StartTime.Before r.EndTime = true
    · simp [hb, h1, h2]
    · simp [hb]

theorem Time.Before_irrefl (t : Time) : t.Before t = false := by
  simp [Time.Before]

/-! ## Claims about validation and construction -/

/-- C1 (evaluated on the code): a title of 51 characters, each encoded on two bytes, is
non-empty and has at most 100 characters, yet `Validate` rejects it with the invalid-title
error, because `len` counts the 102 bytes of the title, and it does so whatever the time
range is. The converse direction of the claim holds on the code: an empty title, or a title
of more than 100 characters, is always rejected with the invalid-title error. -/
theorem Validate_counts_bytes_not_characters :
    accentedTitle ≠ "" ∧ accentedTitle.length = 51 ∧ len accentedTitle = 102 ∧
    Validate { Title := accentedTitle, Description := none,
               StartTime := { sec := 0, nsec := 0 }, EndTime := { sec := 1, nsec := 0 } }
      = some Err.ErrInvalidTitle ∧
    (∀ d s e, Validate { Title := accentedTitle, Description := d, StartTime := s, EndTime := e }
      = some Err.ErrInvalidTitle) ∧
    Err.ErrInvalidTitle.Error = "title must be non-empty and at most 100 characters" ∧
    (∀ r : CreateEventRequest, (r.Title = "" ∨ r.Title.length > 100) →
      Validate r = some Err.ErrInvalidTitle) := by
  refine ⟨by decide, by decide, by decide, by decide, ?_, by decide, ?_⟩
  · intro d s e
    have hlen : len accentedTitle > 100 := by decide
    exact (Validate_invalid_title_iff _).mpr (Or.inr hlen)
  · intro r hr
    apply (Validate_invalid_title_iff r).mpr
    rcases hr with h | h
    · exact Or.inl h
    · have hle := length_le_len r.Title
      exact Or.inr (by omega)

theorem Validate_not_before (r : CreateEventRequest)
    (hne : r.Title ≠ "") (hlen : len r.Title ≤ 100)
    (hb : r.StartTime.Before r.EndTime = false) :
    Validate r = some Err.ErrInvalidTimeRange := by
  have ht : ¬ (r.Title = "" ∨ len r.Title > 100) := by
    rintro (h | h)
    · exact hne h
    · omega
  unfold Validate
  rw [if_neg ht]
  simp [hb]

theorem Validate_equal_times (r : CreateEventRequest)
    (hne : r.Title ≠ "") (hlen : len r.Title ≤ 100) (heq : r.StartTime = r.EndTime) :
    Validate r = some Err.ErrInvalidTimeRange := by
  apply Validate_not_before r hne hlen
  rw [heq]
  exact Time.Before_irrefl _

/-- C2 (evaluated on the code): the title of 51 two-byte characters is non-empty and has
at most 100 characters, so it is a valid title as the claim understands it; yet with
start_time strictly before end_time `Validate` does not succeed, and with start_time equal
to end_time it does not fail with the invalid-time-range error: in both cases it returns
the invalid-title error, because `len` counts the 102 bytes of the title. For every title
whose length in bytes is at most 100, in particular every valid title of one-byte
characters, the code does what the claim says. -/
theorem Validate_time_range_behind_byte_length_check :
    (accentedTitle ≠ "" ∧ accentedTitle.length ≤ 100) ∧
    (Time.Before { sec := 0, nsec := 0 } { sec := 1, nsec := 0 } = true ∧
      Validate { Title := accentedTitle, Description := none,
                 StartTime := { sec := 0, nsec := 0 }, EndTime := { sec := 1, nsec := 0 } }
        = some Err.ErrInvalidTitle ∧
      Validate { Title := accentedTitle, Description := none,
                 StartTime := { sec := 0, nsec := 0 }, EndTime := { sec := 1, nsec := 0 } }
        ≠ none) ∧
    (Time.Before { sec := 1, nsec := 0 } { sec := 1, nsec := 0 } = false ∧
      Validate { Title := accentedTitle, Description := none,
                 StartTime := { sec := 1, nsec := 0 }, EndTime := { sec := 1, nsec := 0 } }
        = some Err.ErrInvalidTitle ∧
      Validate { Title := accentedTitle, Description := none,
                 StartTime := { sec := 1, nsec := 0 }, EndTime := { sec := 1, nsec := 0 } }
        ≠ some Err.ErrInvalidTimeRange) ∧
    (∀ r : CreateEventRequest, r.Title ≠ "" → len r.Title ≤ 100 →
      (r.StartTime.Before r.EndTime = false → Validate r = some Err.ErrInvalidTimeRange) ∧
      (r.StartTime = r.EndTime → Validate r = some Err.ErrInvalidTimeRange) ∧
      (r.StartTime.Before r.EndTime = true → Validate r = none)) := by
  refine ⟨by decide, by decide, by decide, ?_⟩
  intro r hne hlen
  exact ⟨Validate_not_before r hne hlen, Validate_equal_times r hne hlen,
    fun hb => (Validate_none_iff r).mpr ⟨hne, hlen, hb⟩⟩

/-- C3: `newEvent` returns an Event exactly when `Validate` succeeds, otherwise it returns
the error of `Validate` and no Event; the Event carries the title, description, start_time
and end_time of the request unchanged (with the generated id and creation time), so its
start_time is strictly before its end_time and its title length is in [1,100], counted in
bytes and hence also counted in characters. -/
theorem newEvent_spec (req : CreateEventRequest) (newID : UUID) (now : Time) :
    ((∃ e, newEvent req newID now = .ok e) ↔ Validate req = none) ∧
    (∀ err, Validate req = some err → newEvent req newID now = .error err) ∧
    (∀ e, newEvent req newID now = .ok e →
      e.Title = req.Title ∧ e.Description = req.Description ∧
      e.StartTime = req.StartTime ∧ e.EndTime = req.EndTime ∧
      e.ID = newID ∧ e.CreatedAt = now ∧
      e.StartTime.Before e.EndTime = true ∧
      1 ≤ len e.Title ∧ len e.Title ≤ 100 ∧
      1 ≤ e.Title.length ∧ e.Title.length ≤ 100) := by
  refine ⟨?_, ?_, ?_⟩
  · unfold newEvent
    cases hv : Validate req with
    | none => simp
    | some err => simp
  · intro err hv
    unfold newEvent
    rw [hv]
  · intro e he
    unfold newEvent at he
    cases hv : Validate req with
    | some err => rw [hv] at he; simp at he
    | none =>
      rw [hv] at he
      simp only [Except.ok.injEq] at he
      obtain ⟨h1, h2, h3⟩ := (Validate_none_iff req).mp hv
      subst he
      have hpos := length_pos_of_ne_empty req.Title h1
      have hle := length_le_len req.Title
      exact ⟨rfl, rfl, rfl, rfl, rfl, rfl, h3, le_trans hpos hle, h2, hpos, le_trans hle h2⟩

/-- Instance of C3: the example request yields an Event, the same request with an empty
title yields the invalid-title error. -/
theorem newEvent_spec_witness :
    (∃ e, newEvent standupRequest { value := 42 } { sec := 1704000000, nsec := 0 } = .ok e) ∧
    newEvent { standupRequest with Title := "" } { value := 42 } { sec := 1704000000, nsec := 0 }
      = .error Err.ErrInvalidTitle :=
  ⟨(newEvent_spec standupRequest { value := 42 } { sec := 1704000000, nsec := 0 }).1.mpr
      (by decide),
   (newEvent_spec { standupRequest with Title := "" } { value := 42 }
      { sec := 1704000000, nsec := 0 }).2.1 Err.ErrInvalidTitle (by decide)⟩

/-! ## Claims about the request handlers -/

theorem create_decode_failure (h : EventHandler) (w : World) (r : Request)
    (hd : r.decoded = none) :
    create h w r
      = (Response.mk 400
            (Payload.ErrorResponse "invalid_payload" "Invalid request payload"), []) := by
  unfold create
  rw [hd]
  rfl

theorem create_validation_failure (h : EventHandler) (w : World) (r : Request)
    (req : CreateEventRequest) (err : Err) (hd : r.decoded = some req)
    (hv : Validate req = some err) :
    create h w r
      = (Response.mk 400 (Payload.ErrorResponse "validation_error" err.Error), []) := by
  unfold create
  rw [hd]
  simp only [newEvent, hv]
  rfl

theorem HandleEvents_post (h : EventHandler) (w : World) (r : Request)
    (hm : r.Method = "POST") : HandleEvents h w r = create h w r := by
  unfold HandleEvents
  have h1 : ¬ (r.Method = MethodGet) := by rw [hm]; decide
  have h2 : r.Method = MethodPost := by rw [hm]; rfl
  rw [if_neg h1, if_pos h2]

theorem HandleEventByID_invalid_id (h : EventHandler) (w : World) (r : Request) (msg : String)
    (he : extractEventID w.parse r.Path = .error msg) :
    HandleEventByID h w r
      = (Response.mk 400 (Payload.ErrorResponse "invalid_id" msg), []) := by
  unfold HandleEventByID
  rw [he]
  rfl

/-- C4: client-input errors are answered with status 400 and no Event Store operation.
A create request whose body fails to decode yields 400 invalid_payload; one that fails
validation yields 400 validation_error with the message of the validation error (for
instance an empty title, or start_time equal to end_time); an item-endpoint request whose
id segment is missing or does not parse yields 400 invalid_id (for instance
/events/not-a-uuid); in each case the list of store operations is empty. -/
theorem client_input_errors_are_400 (h : EventHandler) (w : World) (r : Request) :
    (r.decoded = none →
      create h w r
          = (Response.mk 400
            (Payload.ErrorResponse "invalid_payload" "Invalid request payload"), []) ∧
      (r.Method = "POST" → HandleEvents h w r
          = (Response.mk 400
            (Payload.ErrorResponse "invalid_payload" "Invalid request payload"), []))) ∧
    (∀ req err, r.decoded = some req → Validate req = some err →
      create h w r = (Response.mk 400 (Payload.ErrorResponse "validation_error" err.Error), []) ∧
      (r.Method = "POST" → HandleEvents h w r
          = (Response.mk 400 (Payload.ErrorResponse "validation_error" err.Error), []))) ∧
    (∀ req, r.decoded = some req → req.Title = "" →
      create h w r
          = (Response.mk 400
            (Payload.ErrorResponse "validation_error"
              "title must be non-empty and at most 100 characters"), [])) ∧
    (∀ req, r.decoded = some req → req.Title ≠ "" → len req.Title ≤ 100 →
      req.StartTime = req.EndTime →
      create h w r
          = (Response.mk 400
            (Payload.ErrorResponse "validation_error"
              "start time must be before end time"), [])) ∧
    (∀ msg, extractEventID w.parse r.Path = .error msg →
      HandleEventByID h w r
        = (Response.mk 400 (Payload.ErrorResponse "invalid_id" msg), [])) ∧
    ((stringsSplit (stringsTrim r.Path "/") '/').length < 2 ∨
        (stringsSplit (stringsTrim r.Path "/") '/').getD 1 "" = "" →
      HandleEventByID h w r
        = (Response.mk 400 (Payload.ErrorResponse "invalid_id" "missing event ID"),
            [])) ∧
    (¬ ((stringsSplit (stringsTrim r.Path "/") '/').length < 2 ∨
        (stringsSplit (stringsTrim r.Path "/") '/').getD 1 "" = "") →
      w.parse ((stringsSplit (stringsTrim r.Path "/") '/').getD 1 "") = none →
      HandleEventByID h w r
        = (Response.mk 400 (Payload.ErrorResponse "invalid_id" "invalid event ID format"), [])) ∧
    (r.Path = "/events/not-a-uuid" → w.parse "not-a-uuid" = none →
      HandleEventByID h w r
        = (Response.mk 400
              (Payload.ErrorResponse "invalid_id" "invalid event ID format"), [])) := by
  refine ⟨?_, ?_, ?_, ?_, ?_, ?_, ?_, ?_⟩
  · intro hd
    refine ⟨create_decode_failure h w r hd, fun hm => ?_⟩
    rw [HandleEvents_post h w r hm]
    exact create_decode_failure h w r hd
  · intro req err hd hv
    refine ⟨create_validation_failure h w r req err hd hv, fun hm => ?_⟩
    rw [HandleEvents_post h w r hm]
    exact create_validation_failure h w r req err hd hv
  · intro req hd ht
    exact create_validation_failure h w r req Err.ErrInvalidTitle hd
      ((Validate_invalid_title_iff req).mpr (Or.inl ht))
  · intro req hd hne hlen heq
    exact create_validation_failure h w r req Err.ErrInvalidTimeRange hd
      (Validate_equal_times req hne hlen heq)
  · intro msg he
    exact HandleEventByID_invalid_id h w r msg he
  · intro hmiss
    apply HandleEventByID_invalid_id
    unfold extractEventID
    simp only []
    rw [if_pos hmiss]
  · intro hpres hparse
    apply HandleEventByID_invalid_id
    unfold extractEventID
    simp only []
    rw [if_neg hpres, hparse]
  · intro hpath hparse
    apply HandleEventByID_invalid_id
    rw [hpath]
    have hparts : stringsSplit (stringsTrim "/events/not-a-uuid" "/") '/'
        = ["events", "not-a-uuid"] := by decide
    unfold extractEventID
    simp only []
    rw [hparts]
    have hpres : ¬ ((["events", "not-a-uuid"] : List String).length < 2 ∨
        (["events", "not-a-uuid"] : List String).getD 1 "" = "") := by decide
    rw [if_neg hpres]
    have hseg : (["events", "not-a-uuid"] : List String).getD 1 "" = "not-a-uuid" := by decide
    rw [hseg, hparse]

/-- Instances of C4: a POST whose body does not decode, a POST with an empty title, and a
GET of /events/not-a-uuid, each on a healthy connection. -/
theorem client_input_errors_are_400_witness :
    HandleEvents { repo := { conn := healthyConn } } (worldWith none)
        { Method := "POST", Path := "/events", decoded := none }
      = (Response.mk 400
          (Payload.ErrorResponse "invalid_payload" "Invalid request payload"), []) ∧
    create { repo := { conn := healthyConn } } (worldWith none)
        { Method := "POST", Path := "/events",
          decoded := some { standupRequest with Title := "" } }
      = (Response.mk 400
            (Payload.ErrorResponse "validation_error"
              "title must be non-empty and at most 100 characters"), []) ∧
    HandleEventByID { repo := { conn := healthyConn } } (worldWith none)
        { Method := "GET", Path := "/events/not-a-uuid", decoded := none }
      = (Response.mk 400 (Payload.ErrorResponse "invalid_id" "invalid event ID format"), []) :=
  ⟨((client_input_errors_are_400 { repo := { conn := healthyConn } } (worldWith none)
      { Method := "POST", Path := "/events", decoded := none }).1 rfl).2 rfl,
   (client_input_errors_are_400 { repo := { conn := healthyConn } } (worldWith none)
      { Method := "POST", Path := "/events",
        decoded := some { standupRequest with Title := "" } }).2.2.1 _ rfl rfl,
   (client_input_errors_are_400 { repo := { conn := healthyConn } } (worldWith none)
      { Method := "GET", Path := "/events/not-a-uuid", decoded := none }).2.2.2.2.2.2.2
      rfl (by decide)⟩

theorem Err.isEventNotFound_iff (err : Err) :
    err.isEventNotFound = true ↔ err = Err.ErrEventNotFound := by
  cases err <;> simp [Err.isEventNotFound]

theorem GetByID_eq_not_found_iff (repo : EventRepository) (id : UUID) :
    GetByID repo id = .error Err.ErrEventNotFound ↔
      ∃ e, repo.conn.queryRow id = .error e ∧ e.isNoRows = true := by
  unfold GetByID
  cases hq : repo.conn.queryRow id with
  | ok event => simp
  | error e =>
    cases hn : e.isNoRows with
    | true => simp [hn]
    | false => simp [hn]

theorem getByID_response (h : EventHandler) (w : World) (r : Request) (id : UUID) :
    (getByID h w r id).1 =
      match GetByID h.repo id with
      | .ok event => Response.mk 200 (Payload.event event)
      | .error err =>
        if err.isEventNotFound then
          Response.mk 404 (Payload.ErrorResponse "not_found" "Event not found")
        else if isDeadlineExceeded w.ctxErr then
          Response.mk 504 (Payload.ErrorResponse "timeout" "Request timed out")
        else
          Response.mk 500 (Payload.ErrorResponse "internal_error" "Failed to fetch event") := by
  unfold getByID
  cases GetByID h.repo id with
  | ok event => rfl
  | error err =>
    simp only []
    split
    · rfl
    · split <;> rfl

/-- C5: for every id, the store's `GetByID` returns the not-found error exactly when the
lookup reports that no row matched (the driver's error is `pgx.ErrNoRows`); any other read
failure becomes the wrapped error "failed to get event", which is not the not-found error;
and the get-by-id handler answers 404 with error code not_found exactly when the store
returned the not-found error. -/
theorem GetByID_not_found_exactly_on_no_rows (h : EventHandler) (w : World) (r : Request)
    (id : UUID) :
    (GetByID h.repo id = .error Err.ErrEventNotFound ↔
      ∃ e, h.repo.conn.queryRow id = .error e ∧ e.isNoRows = true) ∧
    (∀ e, h.repo.conn.queryRow id = .error e → e.isNoRows = false →
      GetByID h.repo id = .error (Err.wrapped "failed to get event" e) ∧
      (Err.wrapped "failed to get event" e).isEventNotFound = false ∧
      Err.wrapped "failed to get event" e ≠ Err.ErrEventNotFound) ∧
    ((getByID h w r id).1 = Response.mk 404 (Payload.ErrorResponse "not_found" "Event not found")
      ↔ GetByID h.repo id = .error Err.ErrEventNotFound) ∧
    ((getByID h w r id).1.status = 404
      ↔ GetByID h.repo id = .error Err.ErrEventNotFound) ∧
    (getByID h w r id).2 = [StoreOp.GetByID id] := by
  refine ⟨GetByID_eq_not_found_iff h.repo id, ?_, ?_, ?_, ?_⟩
  · intro e hq hn
    refine ⟨?_, rfl, by simp⟩
    unfold GetByID
    rw [hq]
    simp [hn]
  · rw [getByID_response]
    cases hg : GetByID h.repo id with
    | ok event => simp
    | error err =>
      cases err <;> cases hd : isDeadlineExceeded w.ctxErr <;>
        simp [Err.isEventNotFound, hd]
  · rw [getByID_response]
    cases hg : GetByID h.repo id with
    | ok event => simp
    | error err =>
      cases err <;> cases hd : isDeadlineExceeded w.ctxErr <;>
        simp [Err.isEventNotFound, hd]
  · unfold getByID
    cases GetByID h.repo id with
    | ok event => rfl
    | error err =>
      simp only []
      split
      · rfl
      · split <;> rfl

theorem create_store_failure (h : EventHandler) (w : World) (r : Request)
    (req : CreateEventRequest) (event : Event) (err : Err) (hd : r.decoded = some req)
    (hn : newEvent req w.newID w.now = .ok event) (hc : Create h.repo event = some err) :
    create h w r =
      (if isDeadlineExceeded w.ctxErr then
        Response.mk 504 (Payload.ErrorResponse "timeout" "Request timed out")
      else
        Response.mk 500 (Payload.ErrorResponse "internal_error" "Failed to create event"),
       [StoreOp.Create event]) := by
  unfold create
  rw [hd]
  simp only [hn, hc]
  split <;> rfl

theorem getAll_store_failure (h : EventHandler) (w : World) (r : Request) (err : Err)
    (hg : GetAll h.repo = .error err) :
    getAll h w r =
      (if isDeadlineExceeded w.ctxErr then
        Response.mk 504 (Payload.ErrorResponse "timeout" "Request timed out")
      else
        Response.mk 500 (Payload.ErrorResponse "internal_error" "Failed to fetch events"),
       [StoreOp.GetAll]) := by
  unfold getAll
  rw [hg]
  simp only []
  split <;> rfl

/-- C6 fails as stated: on get-by-id, when the lookup matches no row and the request context
reports deadline-exceeded, the store call has failed and the deadline has been exceeded,
yet the response is 404 not_found and not 504 timeout. -/
theorem getByID_not_found_precedes_timeout :
    GetByID { conn := failingConn DriverErr.noRows } { value := 7 }
      = .error Err.ErrEventNotFound ∧
    isDeadlineExceeded (worldWith (some CtxErr.DeadlineExceeded)).ctxErr = true ∧
    (getByID { repo := { conn := failingConn DriverErr.noRows } }
        (worldWith (some CtxErr.DeadlineExceeded))
        { Method := "GET", Path := "/events/00000000-0000-0000-0000-000000000007",
          decoded := none } { value := 7 }).1
      = Response.mk 404 (Payload.ErrorResponse "not_found" "Event not found") ∧
    (getByID { repo := { conn := failingConn DriverErr.noRows } }
        (worldWith (some CtxErr.DeadlineExceeded))
        { Method := "GET", Path := "/events/00000000-0000-0000-0000-000000000007",
          decoded := none } { value := 7 }).1.status ≠ 504 := by
  refine ⟨rfl, rfl, rfl, by decide⟩

/-- C6 (amended): for create and list, and for get-by-id when the store's error is not the
not-found error, a failed store call is answered 504 with error code timeout when the
request context's error is deadline-exceeded, and 500 internal_error when it is not; on
get-by-id the not-found error is answered 404 not_found in both cases. -/
theorem store_failure_classification (h : EventHandler) (w : World) (r : Request) (id : UUID) :
    (∀ req event err, r.decoded = some req → newEvent req w.newID w.now = .ok event →
      Create h.repo event = some err →
      (isDeadlineExceeded w.ctxErr = true → (create h w r).1
        = Response.mk 504 (Payload.ErrorResponse "timeout" "Request timed out")) ∧
      (isDeadlineExceeded w.ctxErr = false → (create h w r).1
        = Response.mk 500 (Payload.ErrorResponse "internal_error" "Failed to create event"))) ∧
    (∀ err, GetAll h.repo = .error err →
      (isDeadlineExceeded w.ctxErr = true → (getAll h w r).1
        = Response.mk 504 (Payload.ErrorResponse "timeout" "Request timed out")) ∧
      (isDeadlineExceeded w.ctxErr = false → (getAll h w r).1
        = Response.mk 500 (Payload.ErrorResponse "internal_error" "Failed to fetch events"))) ∧
    (∀ err, GetByID h.repo id = .error err → err ≠ Err.ErrEventNotFound →
      (isDeadlineExceeded w.ctxErr = true → (getByID h w r id).1
        = Response.mk 504 (Payload.ErrorResponse "timeout" "Request timed out")) ∧
      (isDeadlineExceeded w.ctxErr = false → (getByID h w r id).1
        = Response.mk 500 (Payload.ErrorResponse "internal_error" "Failed to fetch event"))) ∧
    (GetByID h.repo id = .error Err.ErrEventNotFound →
      (getByID h w r id).1
        = Response.mk 404 (Payload.ErrorResponse "not_found" "Event not found")) := by
  refine ⟨?_, ?_, ?_, ?_⟩
  · intro req event err hd hn hc
    rw [create_store_failure h w r req event err hd hn hc]
    constructor <;> intro hx <;> simp [hx]
  · intro err hg
    rw [getAll_store_failure h w r err hg]
    constructor <;> intro hx <;> simp [hx]
  · intro err hg hne
    have hnf : err.isEventNotFound = false := by
      cases hb : err.isEventNotFound with
      | false => rfl
      | true => exact absurd ((Err.isEventNotFound_iff err).mp hb) hne
    rw [getByID_response, hg]
    constructor <;> intro hx <;> simp [hnf, hx]
  · intro hg
    rw [getByID_response, hg]
    simp [Err.isEventNotFound]

/-- Instances of C6 (amended): on a connection whose every statement fails with the
context's deadline error, create, list and get-by-id answer 504 when the request context
reports deadline-exceeded; on a connection failing for another reason with a live context
the list answers 500. -/
theorem store_failure_classification_witness :
    (create { repo := { conn := failingConn DriverErr.deadlineExceeded } }
        (worldWith (some CtxErr.DeadlineExceeded))
        { Method := "POST", Path := "/events", decoded := some standupRequest }).1
      = Response.mk 504 (Payload.ErrorResponse "timeout" "Request timed out") ∧
    (getAll { repo := { conn := failingConn DriverErr.deadlineExceeded } }
        (worldWith (some CtxErr.DeadlineExceeded))
        { Method := "GET", Path := "/events", decoded := none }).1
      = Response.mk 504 (Payload.ErrorResponse "timeout" "Request timed out") ∧
    (getByID { repo := { conn := failingConn DriverErr.deadlineExceeded } }
        (worldWith (some CtxErr.DeadlineExceeded))
        { Method := "GET", Path := "/events/00000000-0000-0000-0000-000000000007",
          decoded := none } { value := 7 }).1
      = Response.mk 504 (Payload.ErrorResponse "timeout" "Request timed out") ∧
    (getAll { repo := { conn := failingConn (DriverErr.other "connection reset") } }
        (worldWith none)
        { Method := "GET", Path := "/events", decoded := none }).1
      = Response.mk 500 (Payload.ErrorResponse "internal_error" "Failed to fetch events") :=
  ⟨((store_failure_classification
        { repo := { conn := failingConn DriverErr.deadlineExceeded } }
        (worldWith (some CtxErr.DeadlineExceeded))
        { Method := "POST", Path := "/events", decoded := some standupRequest }
        { value := 7 }).1 standupRequest _ _ rfl rfl rfl).1 rfl,
   ((store_failure_classification
        { repo := { conn := failingConn DriverErr.deadlineExceeded } }
        (worldWith (some CtxErr.DeadlineExceeded))
        { Method := "GET", Path := "/events", decoded := none }
        { value := 7 }).2.1 _ rfl).1 rfl,
   ((store_failure_classification
        { repo := { conn := failingConn DriverErr.deadlineExceeded } }
        (worldWith (some CtxErr.DeadlineExceeded))
        { Method := "GET", Path := "/events/00000000-0000-0000-0000-000000000007",
          decoded := none }
        { value := 7 }).2.2.1 _ rfl (by decide)).1 rfl,
   ((store_failure_classification
        { repo := { conn := failingConn (DriverErr.other "connection reset") } }
        (worldWith none)
        { Method := "GET", Path := "/events", decoded := none }
        { value := 7 }).2.1 _ rfl).2 rfl⟩

/-- Instances of C5: a lookup that matches no row gives the not-found error and a 404
response; a lookup failing with another error gives a wrapped error and no 404. -/
theorem GetByID_not_found_exactly_on_no_rows_witness :
    GetByID { conn := failingConn DriverErr.noRows } { value := 7 }
      = .error Err.ErrEventNotFound ∧
    GetByID { conn := failingConn (DriverErr.other "connection reset") } { value := 7 }
      = .error (Err.wrapped "failed to get event" (DriverErr.other "connection reset")) ∧
    (getByID { repo := { conn := failingConn DriverErr.noRows } } (worldWith none)
        { Method := "GET", Path := "/events/00000000-0000-0000-0000-000000000007",
          decoded := none } { value := 7 }).1
      = Response.mk 404 (Payload.ErrorResponse "not_found" "Event not found") :=
  ⟨(GetByID_not_found_exactly_on_no_rows
      { repo := { conn := failingConn DriverErr.noRows } } (worldWith none)
      { Method := "GET", Path := "/events/00000000-0000-0000-0000-000000000007",
        decoded := none } { value := 7 }).1.mpr ⟨DriverErr.noRows, rfl, rfl⟩,
   ((GetByID_not_found_exactly_on_no_rows
      { repo := { conn := failingConn (DriverErr.other "connection reset") } } (worldWith none)
      { Method := "GET", Path := "/events/00000000-0000-0000-0000-000000000007",
        decoded := none } { value := 7 }).2.1 _ rfl rfl).1,
   (GetByID_not_found_exactly_on_no_rows
      { repo := { conn := failingConn DriverErr.noRows } } (worldWith none)
      { Method := "GET", Path := "/events/00000000-0000-0000-0000-000000000007",
        decoded := none } { value := 7 }).2.2.1.mpr rfl⟩

/-- C7 fails as stated: a DELETE of /events/not-a-uuid, and a DELETE of /events/, are
answered 400 invalid_id and not 405, because the id is extracted before the method is
looked at. -/
theorem HandleEventByID_delete_malformed_id_is_400 :
    HandleEventByID { repo := { conn := healthyConn } } (worldWith none)
        { Method := "DELETE", Path := "/events/not-a-uuid", decoded := none }
      = (Response.mk 400 (Payload.ErrorResponse "invalid_id" "invalid event ID format"), []) ∧
    HandleEventByID { repo := { conn := healthyConn } } (worldWith none)
        { Method := "DELETE", Path := "/events/", decoded := none }
      = (Response.mk 400 (Payload.ErrorResponse "invalid_id" "missing event ID"), []) ∧
    (HandleEventByID { repo := { conn := healthyConn } } (worldWith none)
        { Method := "DELETE", Path := "/events/not-a-uuid", decoded := none }).1.status
      ≠ 405 := by
  refine ⟨by decide, by decide, by decide⟩

/-- C7 (amended): for every request to the item endpoint whose HTTP method is not GET and
whose path carries an id segment that parses as a UUID, `HandleEventByID` responds 405 with
error code method_not_allowed and calls no store operation; when the id segment is missing
or malformed the response is 400 invalid_id, whatever the method. -/
theorem HandleEventByID_method_not_allowed (h : EventHandler) (w : World) (r : Request)
    (hm : r.Method ≠ "GET") :
    (∀ id, extractEventID w.parse r.Path = .ok id →
      HandleEventByID h w r
        = (Response.mk 405 (Payload.ErrorResponse "method_not_allowed" "Method not allowed"),
            [])) ∧
    (∀ msg, extractEventID w.parse r.Path = .error msg →
      HandleEventByID h w r = (Response.mk 400 (Payload.ErrorResponse "invalid_id" msg), [])) := by
  refine ⟨?_, ?_⟩
  · intro id he
    unfold HandleEventByID
    rw [he]
    have hg : ¬ (r.Method = MethodGet) := hm
    simp only []
    rw [if_neg hg]
    rfl
  · intro msg he
    exact HandleEventByID_invalid_id h w r msg he

/-- Instance of C7 (amended): a DELETE of an item with a well-formed id is answered 405. -/
theorem HandleEventByID_method_not_allowed_witness :
    HandleEventByID { repo := { conn := healthyConn } } (worldWith none)
        { Method := "DELETE", Path := "/events/00000000-0000-0000-0000-000000000007",
          decoded := none }
      = (Response.mk 405 (Payload.ErrorResponse "method_not_allowed" "Method not allowed"),
          []) :=
  (HandleEventByID_method_not_allowed { repo := { conn := healthyConn } } (worldWith none)
      { Method := "DELETE", Path := "/events/00000000-0000-0000-0000-000000000007",
        decoded := none } (by decide)).1 { value := 7 } rfl

/-- C10: for every request to the collection endpoint whose HTTP method is neither GET nor
POST, `HandleEvents` responds 405 with error code method_not_allowed and invokes no Event
Store operation. -/
theorem HandleEvents_method_not_allowed (h : EventHandler) (w : World) (r : Request)
    (hg : r.Method ≠ "GET") (hp : r.Method ≠ "POST") :
    HandleEvents h w r
      = (Response.mk 405 (Payload.ErrorResponse "method_not_allowed" "Method not allowed"),
          []) := by
  unfold HandleEvents
  have h1 : ¬ (r.Method = MethodGet) := hg
  have h2 : ¬ (r.Method = MethodPost) := hp
  rw [if_neg h1, if_neg h2]
  rfl

/-- Instance of C10: DELETE /events is answered 405 with no store operation. -/
theorem HandleEvents_method_not_allowed_witness :
    HandleEvents { repo := { conn := healthyConn } } (worldWith none)
        { Method := "DELETE", Path := "/events", decoded := none }
      = (Response.mk 405 (Payload.ErrorResponse "method_not_allowed" "Method not allowed"),
          []) :=
  HandleEvents_method_not_allowed { repo := { conn := healthyConn } } (worldWith none)
    { Method := "DELETE", Path := "/events", decoded := none } (by decide) (by decide)

/-! ## Claims about the Event Store list query -/

theorem scanRows_all_ok (events acc : List Event) :
    scanRows (events.map Except.ok) acc = .ok (acc ++ events) := by
  induction events generalizing acc with
  | nil => simp [scanRows]
  | cons e es ih =>
    simp only [List.map_cons, scanRows]
    rw [ih]
    simp

theorem Time.not_before_total (t u : Time) : u.Before t = false ∨ t.Before u = false := by
  simp only [Time.Before, Bool.or_eq_false_iff, Bool.and_eq_false_iff, decide_eq_false_iff_not]
  by_cases h1 : u.sec < t.sec
  · right
    refine ⟨by omega, Or.inl (by omega)⟩
  · by_cases h2 : u.sec = t.sec
    · by_cases h3 : u.nsec < t.nsec
      · right
        refine ⟨by omega, Or.inr (by omega)⟩
      · left
        exact ⟨h1, Or.inr h3⟩
    · left
      exact ⟨h1, Or.inl h2⟩

theorem Time.not_before_trans (t u v : Time) (h1 : u.Before t = false)
    (h2 : v.Before u = false) : v.Before t = false := by
  simp only [Time.Before, Bool.or_eq_false_iff, Bool.and_eq_false_iff,
    decide_eq_false_iff_not] at h1 h2 ⊢
  obtain ⟨a1, a2⟩ := h1
  obtain ⟨b1, b2⟩ := h2
  refine ⟨by omega, ?_⟩
  by_cases hs : v.sec = t.sec
  · right
    rcases a2 with a2 | a2
    · omega
    · rcases b2 with b2 | b2
      · omega
      · omega
  · left
    exact hs

instance (col : OrderBy) : IsTotal Event (notAfter col) :=
  ⟨fun a b => Time.not_before_total (col.key a) (col.key b)⟩

instance (col : OrderBy) : IsTrans Event (notAfter col) :=
  ⟨fun a b c hab hbc => Time.not_before_trans (col.key a) (col.key b) (col.key c) hab hbc⟩

theorem runSelect_perm (table : List Event) (q : SelectQuery) :
    (runSelect table q).Perm table := by
  unfold runSelect
  cases q.orderByAsc with
  | none => exact List.Perm.refl table
  | some col => exact List.perm_insertionSort (notAfter col) table

theorem runSelect_getAllQuery_ordered (table : List Event) :
    orderedByStartTime (runSelect table getAllQuery) := by
  have hs := List.sorted_insertionSort (notAfter OrderBy.start_time) table
  exact hs

theorem GetAll_of_delivered (r : EventRepository) (events : List Event)
    (hq : r.conn.query getAllQuery = .ok { scans := events.map Except.ok, err := none }) :
    GetAll r = .ok events := by
  unfold GetAll
  rw [hq]
  simp only [scanRows_all_ok, List.nil_append]

/-- C9: `GetAll` issues the list query with its clause ORDER BY start_time ASC, and for
every result set delivered for it (every row scans, the cursor reports no error) it returns
exactly those rows as Events in the delivered order. Hence, when the database answers the
query over the rows of table events, `GetAll` returns every row of the table, ordered
non-decreasing by start_time; and for an empty result set it returns an empty sequence and
no error. -/
theorem GetAll_returns_rows_ordered_by_start_time (r : EventRepository) (table : List Event)
    (hq : r.conn.query getAllQuery
      = .ok { scans := (runSelect table getAllQuery).map Except.ok, err := none }) :
    getAllQuery.orderByAsc = some OrderBy.start_time ∧
    GetAll r = .ok (runSelect table getAllQuery) ∧
    (∀ out, GetAll r = .ok out → orderedByStartTime out ∧ out.Perm table) ∧
    (table = [] → GetAll r = .ok []) ∧
    (∀ (r2 : EventRepository) (events : List Event),
      r2.conn.query getAllQuery = .ok { scans := events.map Except.ok, err := none } →
      GetAll r2 = .ok events) := by
  have hall := GetAll_of_delivered r (runSelect table getAllQuery) hq
  refine ⟨rfl, hall, ?_, ?_, ?_⟩
  · intro out hout
    rw [hall] at hout
    simp only [Except.ok.injEq] at hout
    rw [← hout]
    exact ⟨runSelect_getAllQuery_ordered table, runSelect_perm table getAllQuery⟩
  · intro he
    rw [hall, he]
    rfl
  · intro r2 events h2
    exact GetAll_of_delivered r2 events h2

/-- Instance of C9: a table holding two events, the later one first, is listed in
start_time order; an empty table gives the empty sequence; and a result set delivered as
it is comes back unchanged. -/
theorem GetAll_returns_rows_ordered_by_start_time_witness :
    GetAll { conn := tableConn [eventAt 2 200, eventAt 1 100] }
      = .ok [eventAt 1 100, eventAt 2 200] ∧
    orderedByStartTime [eventAt 1 100, eventAt 2 200] ∧
    GetAll { conn := tableConn [] } = .ok [] ∧
    GetAll { conn := listingConn [eventAt 1 100, eventAt 2 200] }
      = .ok [eventAt 1 100, eventAt 2 200] :=
  ⟨(GetAll_returns_rows_ordered_by_start_time
      { conn := tableConn [eventAt 2 200, eventAt 1 100] }
      [eventAt 2 200, eventAt 1 100] rfl).2.1,
   by decide,
   (GetAll_returns_rows_ordered_by_start_time { conn := tableConn [] } [] rfl).2.2.2.1 rfl,
   (GetAll_returns_rows_ordered_by_start_time { conn := tableConn [] } [] rfl).2.2.2.2
      { conn := listingConn [eventAt 1 100, eventAt 2 200] }
      [eventAt 1 100, eventAt 2 200] rfl⟩

/-! ## Claims about the connection manager -/

theorem Connect_after_once (s : DbState) (c : ConnectCall) (hs : s.connOnce = true) :
    Connect s c = ((s.conn, s.connErr), s) := by
  unfold Connect
  simp [hs]

theorem connectAll_after_once (s : DbState) (cs : List ConnectCall) (hs : s.connOnce = true) :
    (connectAll s cs).2 = s ∧ ∀ res ∈ (connectAll s cs).1, res = (s.conn, s.connErr) := by
  induction cs with
  | nil => simp [connectAll]
  | cons c cs ih =>
    simp only [connectAll, Connect_after_once s c hs]
    refine ⟨ih.1, ?_⟩
    intro res hres
    rcases List.mem_cons.mp hres with h | h
    · exact h
    · exact ih.2 res h

theorem connectAll_length (s : DbState) (cs : List ConnectCall) :
    (connectAll s cs).1.length = cs.length := by
  induction cs generalizing s with
  | nil => simp [connectAll]
  | cons c cs ih =>
    simp only [connectAll, List.length_cons]
    rw [ih]

theorem Connect_initial_once (c : ConnectCall) :
    (Connect DbState.initial c).2.connOnce = true := by
  simp [Connect, DbState.initial]

theorem Connect_initial_pair (c : ConnectCall) :
    (Connect DbState.initial c).1
      = ((Connect DbState.initial c).2.conn, (Connect DbState.initial c).2.connErr) := by
  simp [Connect]

theorem Connect_initial_log (c : ConnectCall) :
    countConnects (Connect DbState.initial c).2.log = 1 ∧
    countPings (Connect DbState.initial c).2.log ≤ 1 ∧
    (Connect DbState.initial c).2.log.head?
      = some (Effect.connect c.cfg.URL (decide (c.cfg.ConnectTimeout > 0))) := by
  unfold Connect connectOnce
  simp only [DbState.initial]
  cases hd : c.dial with
  | error e => simp [countConnects, countPings]
  | ok cn =>
    cases hp : c.ping cn with
    | some e => simp [hp, countConnects, countPings]
    | none => simp [hp, countConnects, countPings]

theorem connectAll_cons_initial (c : ConnectCall) (cs : List ConnectCall) :
    (connectAll DbState.initial (c :: cs)).2 = (Connect DbState.initial c).2 ∧
    ∀ res ∈ (connectAll DbState.initial (c :: cs)).1, res = (Connect DbState.initial c).1 := by
  have hrest := connectAll_after_once (Connect DbState.initial c).2 cs (Connect_initial_once c)
  simp only [connectAll]
  refine ⟨hrest.1, ?_⟩
  intro res hres
  rcases List.mem_cons.mp hres with h | h
  · exact h
  · rw [Connect_initial_pair c]
    exact hrest.2 res h

/-- C8: for every sequence of `Connect` calls made one after the other in one process, with
any configs and any driver answers, the connect-and-ping sequence runs at most once, on the
first call only, and every call returns the connection/error pair that the first call
produced; a failed connect or a failed ping leaves no connection cached and the wrapped
error cached, and a successful first call leaves its connection cached with no error. -/
theorem Connect_runs_once (c : ConnectCall) (cs : List ConnectCall) :
    (∀ calls : List ConnectCall, countConnects (connectAll DbState.initial calls).2.log ≤ 1) ∧
    (connectAll DbState.initial (c :: cs)).1.length = cs.length + 1 ∧
    (∀ res ∈ (connectAll DbState.initial (c :: cs)).1, res = (Connect DbState.initial c).1) ∧
    (connectAll DbState.initial (c :: cs)).2 = (Connect DbState.initial c).2 ∧
    countConnects (connectAll DbState.initial (c :: cs)).2.log = 1 ∧
    countPings (connectAll DbState.initial (c :: cs)).2.log ≤ 1 ∧
    (connectAll DbState.initial (c :: cs)).2.log.head?
      = some (Effect.connect c.cfg.URL (decide (c.cfg.ConnectTimeout > 0))) ∧
    (∀ e, c.dial = .error e →
      (Connect DbState.initial c).1
        = (none, some (Err.wrapped "failed to connect to database" e)) ∧
      GetConn (connectAll DbState.initial (c :: cs)).2 = none ∧
      (connectAll DbState.initial (c :: cs)).2.connErr
        = some (Err.wrapped "failed to connect to database" e)) ∧
    (∀ cn e, c.dial = .ok cn → c.ping cn = some e →
      (Connect DbState.initial c).1
        = (none, some (Err.wrapped "failed to ping database" e)) ∧
      GetConn (connectAll DbState.initial (c :: cs)).2 = none ∧
      (connectAll DbState.initial (c :: cs)).2.connErr
        = some (Err.wrapped "failed to ping database" e)) ∧
    (∀ cn, c.dial = .ok cn → c.ping cn = none →
      (Connect DbState.initial c).1 = (some cn, none) ∧
      GetConn (connectAll DbState.initial (c :: cs)).2 = some cn ∧
      (connectAll DbState.initial (c :: cs)).2.connErr = none) := by
  have hcons := connectAll_cons_initial c cs
  have hlog := Connect_initial_log c
  refine ⟨?_, ?_, hcons.2, hcons.1, ?_, ?_, ?_, ?_, ?_, ?_⟩
  · intro calls
    cases calls with
    | nil => simp [connectAll, DbState.initial, countConnects]
    | cons d ds =>
      rw [(connectAll_cons_initial d ds).1]
      exact le_of_eq (Connect_initial_log d).1
  · rw [connectAll_length, List.length_cons]
  · rw [hcons.1]; exact hlog.1
  · rw [hcons.1]; exact hlog.2.1
  · rw [hcons.1]; exact hlog.2.2
  · intro e hd
    rw [hcons.1]
    simp [Connect, connectOnce, DbState.initial, GetConn, hd]
  · intro cn e hd hp
    rw [hcons.1]
    simp [Connect, connectOnce, DbState.initial, GetConn, hd, hp]
  · intro cn hd hp
    rw [hcons.1]
    simp [Connect, connectOnce, DbState.initial, GetConn, hd, hp]

/-- Instances of C8: three calls of which only the first could connect return the first
call's connection three times with one connect in the log; after a first call whose ping
fails, a later call that could connect still returns no connection and the cached error. -/
theorem Connect_runs_once_witness :
    (connectAll DbState.initial [goodCall 1, dialFailCall, goodCall 2]).1
      = [(some { handle := 1 }, none), (some { handle := 1 }, none),
         (some { handle := 1 }, none)] ∧
    countConnects (connectAll DbState.initial [goodCall 1, dialFailCall, goodCall 2]).2.log
      = 1 ∧
    (Connect DbState.initial (pingFailCall 3)).1
      = (none, some (Err.wrapped "failed to ping database" (DriverErr.other "ping failed"))) ∧
    GetConn (connectAll DbState.initial [pingFailCall 3, goodCall 4]).2 = none :=
  ⟨by decide,
   (Connect_runs_once (goodCall 1) [dialFailCall, goodCall 2]).2.2.2.2.1,
   ((Connect_runs_once (pingFailCall 3) [goodCall 4]).2.2.2.2.2.2.2.2.1
      { handle := 3 } (DriverErr.other "ping failed") rfl rfl).1,
   ((Connect_runs_once (pingFailCall 3) [goodCall 4]).2.2.2.2.2.2.2.2.1
      { handle := 3 } (DriverErr.other "ping failed") rfl rfl).2.1⟩

end Taller
